import Mathlib

/-!
Verification of the society-management application's persistence and
credential layer.

The development shallowly embeds the data-access module (`db.ts`) and the
application-level flows of `App.tsx` (receipt creation, expense entry,
settings load/save, login, change-password, default-admin seeding).

The IndexedDB database `NeelkanthDB` is modelled as a record of four
collections:
  * `receipts`  — auto-incremented numeric key (`keyPath 'id'`,
    `autoIncrement: true`, counter starting at 1, as IndexedDB does),
    with a unique secondary index on `receiptNumber`;
  * `expenses`  — auto-incremented numeric key, no secondary index;
  * `settings`  — explicit key (`keyPath 'id'`);
  * `auth`      — explicit key (`keyPath 'username'`).

The SHA-256 digest (`crypto.subtle.digest` in the source) is an external
cryptographic primitive; all credential operations are parameterised by a
digest function `hash : String → String`.
-/

/-- Models `paymentMethod: 'Cash' | 'Cheque' | 'Online'` from `types.ts`. -/
inductive PaymentMethod where
  | cash
  | cheque
  | online
deriving DecidableEq, Repr

/-- Models `signatureType: 'typed' | 'drawn' | 'uploaded'` from `types.ts`. -/
inductive SignatureType where
  | typed
  | drawn
  | uploaded
deriving DecidableEq, Repr

/-- The `Receipt` interface of `types.ts`.  The monetary amount is a JS
number used with exact integral test values; it is modelled as `Int`. -/
structure Receipt where
  id : Nat
  receiptNumber : String
  name : String
  blockNumber : String
  amount : Int
  date : String
  forMonth : String
  paymentMethod : PaymentMethod
deriving DecidableEq, Repr

/-- Models `Omit<Receipt, 'id'>`: the record handed to `addReceipt`, before the
store assigns the auto-incremented primary key. -/
structure ReceiptInput where
  receiptNumber : String
  name : String
  blockNumber : String
  amount : Int
  date : String
  forMonth : String
  paymentMethod : PaymentMethod
deriving DecidableEq, Repr

/-- Models `Omit<Receipt, 'id' | 'receiptNumber'>`: the new-receipt form data
(`ReceiptFormData` in `App.tsx`). -/
structure ReceiptFormData where
  name : String
  blockNumber : String
  amount : Int
  date : String
  forMonth : String
  paymentMethod : PaymentMethod
deriving DecidableEq, Repr

/-- The `Expense` interface of `types.ts`. -/
structure Expense where
  id : Nat
  date : String
  description : String
  amount : Int
deriving DecidableEq, Repr

/-- Models `Omit<Expense, 'id'>`: the expense-entry form data. -/
structure ExpenseFormData where
  date : String
  description : String
  amount : Int
deriving DecidableEq, Repr

/-- The `Settings` interface of `types.ts`.  The settings store has
`keyPath 'id'`, so the `id` field is the record's primary key. -/
structure Settings where
  id : Nat
  adminName : String
  blockNumber : String
  signatureType : SignatureType
  typedSignature : String
  drawnSignature : String
  uploadedSignature : String
deriving DecidableEq, Repr

/-- A record of the `auth` store: `{ username: string; passwordHash: string }`
keyed by `username`. -/
structure AuthRecord where
  username : String
  passwordHash : String
deriving DecidableEq, Repr

/-- The state of the `NeelkanthDB` database: the four object stores plus
the auto-increment key generators of `receipts` and `expenses`
(IndexedDB key generators start at 1 and advance on every successful
`add`). -/
structure DB where
  receiptsStore : List Receipt
  receiptsNextKey : Nat
  expensesStore : List Expense
  expensesNextKey : Nat
  settingsStore : List Settings
  authStore : List AuthRecord
deriving DecidableEq, Repr

/-- The database right after `upgrade` created the four empty stores. -/
def emptyDB : DB :=
  { receiptsStore := []
    receiptsNextKey := 1
    expensesStore := []
    expensesNextKey := 1
    settingsStore := []
    authStore := [] }

/-- Errors of the store layer.  `add` on the `receipts` store fails with
`ConstraintViolation` when the unique `receiptNumber` index would be
duplicated. -/
inductive DBError where
  | constraintViolation
deriving DecidableEq, Repr

/-- IndexedDB `put` on a store with `keyPath 'id'`: insert-or-replace the
record whose key equals the new record's key. -/
def putSettingsByKey (s : Settings) : List Settings → List Settings
  | [] => [s]
  | r :: rs => if r.id = s.id then s :: rs else r :: putSettingsByKey s rs

/-- IndexedDB `put` on the `auth` store (`keyPath 'username'`). -/
def putAuthByKey (a : AuthRecord) : List AuthRecord → List AuthRecord
  | [] => [a]
  | r :: rs => if r.username = a.username then a :: rs else r :: putAuthByKey a rs

/-- Models `getAuthCredentials(username)` of `db.ts`: `db.get('auth', username)`. -/
def getAuthCredentials (username : String) (db : DB) : Option AuthRecord :=
  db.authStore.find? (fun a => a.username = username)

/-- Models `saveAuthCredentials(username, passwordHash)` of `db.ts`:
`db.put('auth', { username, passwordHash })`. -/
def saveAuthCredentials (username passwordHash : String) (db : DB) : DB :=
  { db with authStore := putAuthByKey ⟨username, passwordHash⟩ db.authStore }

/-- Models `getAllReceipts()` of `db.ts`: `db.getAll('receipts')`. -/
def getAllReceipts (db : DB) : List Receipt :=
  db.receiptsStore

/-- Models `addReceipt(receipt)` of `db.ts`: `db.add('receipts', receipt)`.
The store assigns the next auto-increment key; the unique secondary index
on `receiptNumber` rejects the insertion with a `ConstraintError` when
another receipt already carries the same receipt number. -/
def addReceipt (r : ReceiptInput) (db : DB) : Except DBError (Nat × DB) :=
  if db.receiptsStore.any (fun x => x.receiptNumber == r.receiptNumber) then
    .error .constraintViolation
  else
    let k := db.receiptsNextKey
    .ok (k,
      { db with
          receiptsStore := db.receiptsStore ++
            [{ id := k
               receiptNumber := r.receiptNumber
               name := r.name
               blockNumber := r.blockNumber
               amount := r.amount
               date := r.date
               forMonth := r.forMonth
               paymentMethod := r.paymentMethod }]
          receiptsNextKey := k + 1 })

/-- Models `getAllExpenses()` of `db.ts`. -/
def getAllExpenses (db : DB) : List Expense :=
  db.expensesStore

/-- Models `addExpense(expense)` of `db.ts`: `db.add('expenses', expense)`; the
`expenses` store has no secondary index, so insertion always succeeds. -/
def addExpense (e : ExpenseFormData) (db : DB) : Nat × DB :=
  let k := db.expensesNextKey
  (k,
    { db with
        expensesStore := db.expensesStore ++
          [{ id := k, date := e.date, description := e.description, amount := e.amount }]
        expensesNextKey := k + 1 })

/-- Models `getSettings()` of `db.ts`: `db.get('settings', 1)` — settings are
stored with a fixed key. -/
def getSettings (db : DB) : Option Settings :=
  db.settingsStore.find? (fun s => s.id = 1)

/-- Models `saveSettings(settings)` of `db.ts`:
`db.put('settings', { ...settings, id: 1 })` — whatever `id` the argument
carries is overwritten with the constant 1 before the write. -/
def saveSettings (s : Settings) (db : DB) : DB :=
  { db with settingsStore := putSettingsByKey { s with id := 1 } db.settingsStore }

/-! ## Application layer (`App.tsx`) -/

/-- JS `String.prototype.padStart(targetLength, pad)` for a single pad
character: pad on the left until the length reaches `targetLength`; a
string already at least that long is returned unchanged. -/
def padStart (s : String) (targetLength : Nat) (c : Char) : String :=
  String.mk (List.replicate (targetLength - s.length) c) ++ s

/-- The receipt number computed by `NewReceiptPage`:
`` `NSM-${String(receiptCount + 1).padStart(4, '0')}` `` where
`receiptCount` is the length of `getAllReceipts()`. -/
def nextReceiptNumber (db : DB) : String :=
  "NSM-" ++ padStart (toString ((getAllReceipts db).length + 1)) 4 '0'

/-- Models `NewReceiptPage.onSubmit`: build the new receipt from the form data and
the displayed `receiptNumber`, and `addReceipt` it. -/
def createReceipt (f : ReceiptFormData) (db : DB) : Except DBError (Nat × DB) :=
  addReceipt
    { receiptNumber := nextReceiptNumber db
      name := f.name
      blockNumber := f.blockNumber
      amount := f.amount
      date := f.date
      forMonth := f.forMonth
      paymentMethod := f.paymentMethod } db

/-- The `'add' | 'subtract'` mode toggle of `ExpensesPage` (`income` /
`outlay` in the specification's vocabulary). -/
inductive ExpenseMode where
  | add
  | subtract
deriving DecidableEq, Repr

/-- Models `ExpensesPage.onSubmit`:
`amount = mode === 'add' ? Number(data.amount) : -Number(data.amount)`,
then `addExpense({ ...data, amount })`. -/
def createExpense (f : ExpenseFormData) (mode : ExpenseMode) (db : DB) : Nat × DB :=
  let amount : Int := match mode with | .add => f.amount | .subtract => -f.amount
  addExpense { date := f.date, description := f.description, amount := amount } db

/-- The net balance shown by `ExpensesPage`:
`expenses.reduce((sum, e) => sum + e.amount, 0)`. -/
def netBalance (expenses : List Expense) : Int :=
  expenses.foldl (fun sum e => sum + e.amount) 0

/-- Models `totalIncome` of `exportExpensesToPdf`:
`expenses.filter(e => e.amount > 0).reduce((sum, e) => sum + e.amount, 0)`. -/
def totalIncome (expenses : List Expense) : Int :=
  (expenses.filter (fun e => decide (0 < e.amount))).foldl (fun sum e => sum + e.amount) 0

/-- Models `totalExpense` of `exportExpensesToPdf`:
`expenses.filter(e => e.amount < 0).reduce((sum, e) => sum + Math.abs(e.amount), 0)`. -/
def totalExpense (expenses : List Expense) : Int :=
  (expenses.filter (fun e => decide (e.amount < 0))).foldl (fun sum e => sum + |e.amount|) 0

/-- Models `AuthProvider.login(user, pass)`: true exactly when `user === 'admin'`,
a stored credential for `'admin'` exists, and the digest of `pass` equals
the stored `passwordHash`. -/
def login (hash : String → String) (user pass : String) (db : DB) : Bool :=
  if user = "admin" then
    match getAuthCredentials "admin" db with
    | some credentials => hash pass = credentials.passwordHash
    | none => false
  else
    false

/-- The seeding step of `AuthProvider.checkAuth`: if no credential is
stored for `'admin'`, persist the digest of the hard-coded default
password `'google'`; otherwise do nothing. -/
def ensureDefaultAdmin (hash : String → String) (db : DB) : DB :=
  match getAuthCredentials "admin" db with
  | some _ => db
  | none => saveAuthCredentials "admin" (hash "google") db

/-- The outcome reported by `ChangePasswordForm.onSubmit` through
`setMessage`: a success message, the error message for a wrong current
password, or — when no credential is stored at all — no message, since the
body is guarded by `if (credentials)`. -/
inductive ChangePasswordOutcome where
  | success
  | wrongCurrentPassword
  | silent
deriving DecidableEq, Repr

/-- Models `ChangePasswordForm.onSubmit(currentPassword, newPassword)`: when a
credential is stored, compare the digest of the current password with the
stored digest; on mismatch report the wrong-password error, on match
persist the digest of the new password and report success.  When no
credential is stored, the guarded body is skipped entirely. -/
def changePassword (hash : String → String) (currentPassword newPassword : String)
    (db : DB) : ChangePasswordOutcome × DB :=
  match getAuthCredentials "admin" db with
  | some credentials =>
    if hash currentPassword = credentials.passwordHash then
      (.success, saveAuthCredentials "admin" (hash newPassword) db)
    else
      (.wrongCurrentPassword, db)
  | none => (.silent, db)

/-- The hard-coded `defaultSettings` object of
`SettingsProvider.loadSettings`.  The source object has no `id` field
(`saveSettings` supplies the fixed key 1); the placeholder 0 here is
overwritten by every write path. -/
def defaultSettings : Settings :=
  { id := 0
    adminName := "Admin"
    blockNumber := "Society Office"
    signatureType := .typed
    typedSignature := "For Neelkanth Society"
    drawnSignature := ""
    uploadedSignature := "" }

/-- Models `SettingsProvider.loadSettings`: return the stored settings record, or
— when `getSettings()` finds none — persist `defaultSettings` and return
`{ ...defaultSettings, id: 1 }`. -/
def loadSettings (db : DB) : Settings × DB :=
  match getSettings db with
  | some currentSettings => (currentSettings, db)
  | none => ({ defaultSettings with id := 1 }, saveSettings defaultSettings db)

/-- The form fields registered by `SettingsPage` (`adminName`,
`blockNumber`, `signatureType`, `typedSignature`); the two image payloads
are not part of the form. -/
structure SettingsFormData where
  adminName : String
  blockNumber : String
  signatureType : SignatureType
  typedSignature : String
deriving DecidableEq, Repr

/-- JS `a || b` on strings: `a` when truthy (non-empty), else `b`. -/
def jsOrString (a b : String) : String :=
  if a = "" then b else a

/-- Models `SettingsPage.onSubmit`: `prev` is the currently loaded settings
record (the page renders only when it is non-null), `pad` is
`some dataUrl` when the signature canvas is non-empty and `none`
otherwise.  The saved record takes the form fields, the canvas image or
`settings?.drawnSignature || ''`, and `settings?.uploadedSignature || ''`;
its key is fixed to 1 by `saveSettings`. -/
def settingsPageSave (prev : Settings) (form : SettingsFormData)
    (pad : Option String) (db : DB) : DB :=
  let drawnSignature : String :=
    match pad with
    | some dataUrl => dataUrl
    | none => jsOrString prev.drawnSignature ""
  saveSettings
    { id := prev.id
      adminName := form.adminName
      blockNumber := form.blockNumber
      signatureType := form.signatureType
      typedSignature := form.typedSignature
      drawnSignature := drawnSignature
      uploadedSignature := jsOrString prev.uploadedSignature "" } db

/-- A user-triggerable store-mutating operation of the application,
closed under which the reachable-state invariants are proved. -/
inductive Op where
  | createReceiptOp (f : ReceiptFormData)
  | createExpenseOp (f : ExpenseFormData) (mode : ExpenseMode)
  | saveSettingsOp (s : Settings)
  | settingsPageSaveOp (prev : Settings) (form : SettingsFormData) (pad : Option String)
  | loadSettingsOp
  | saveAuthOp (username passwordHash : String)
  | ensureDefaultAdminOp (hash : String → String)
  | changePasswordOp (hash : String → String) (currentPassword newPassword : String)

/-- Apply one operation to the database; a failed `add` leaves the
database unchanged (the aborted IndexedDB transaction writes nothing). -/
def applyOp (op : Op) (db : DB) : DB :=
  match op with
  | .createReceiptOp f =>
    match createReceipt f db with
    | .ok (_, db') => db'
    | .error _ => db
  | .createExpenseOp f mode => (createExpense f mode db).2
  | .saveSettingsOp s => saveSettings s db
  | .settingsPageSaveOp prev form pad => settingsPageSave prev form pad db
  | .loadSettingsOp => (loadSettings db).2
  | .saveAuthOp u h => saveAuthCredentials u h db
  | .ensureDefaultAdminOp hash => ensureDefaultAdmin hash db
  | .changePasswordOp hash c n => (changePassword hash c n db).2

/-! ## Helper lemmas -/

/-- After `put`, looking the record up by its own key finds exactly the
record just written. -/
lemma find?_putAuthByKey (a : AuthRecord) (l : List AuthRecord) :
    (putAuthByKey a l).find? (fun x => x.username = a.username) = some a := by
  induction l with
  | nil => simp [putAuthByKey, List.find?]
  | cons r rs ih =>
    by_cases h : r.username = a.username
    · simp [putAuthByKey, h, List.find?]
    · simp [putAuthByKey, h, List.find?, ih]

/-- A read of the auth store right after a put of the same username returns
the record just written. -/
lemma getAuth_saveAuth (u h : String) (db : DB) :
    getAuthCredentials u (saveAuthCredentials u h db) = some ⟨u, h⟩ := by
  simpa [getAuthCredentials, saveAuthCredentials] using
    find?_putAuthByKey ⟨u, h⟩ db.authStore

/-- After `put`, looking the settings record up by its own key finds
exactly the record just written. -/
lemma find?_putSettingsByKey (s : Settings) (l : List Settings) :
    (putSettingsByKey s l).find? (fun x => x.id = s.id) = some s := by
  induction l with
  | nil => simp [putSettingsByKey, List.find?]
  | cons r rs ih =>
    by_cases h : r.id = s.id
    · simp [putSettingsByKey, h, List.find?]
    · simp [putSettingsByKey, h, List.find?, ih]

/-- Reading settings right after `saveSettings s` returns `s` keyed by 1. -/
lemma getSettings_saveSettings (s : Settings) (db : DB) :
    getSettings (saveSettings s db) = some { s with id := 1 } := by
  simpa [getSettings, saveSettings] using
    find?_putSettingsByKey { s with id := 1 } db.settingsStore

/-- JS `reduce((sum, e) => sum + g(e), i)` as `i` plus the sum of the
mapped values. -/
lemma foldl_add_g (g : Expense → Int) (l : List Expense) (i : Int) :
    l.foldl (fun sum e => sum + g e) i = i + (l.map g).sum := by
  induction l generalizing i with
  | nil => simp
  | cons e t ih => simp [ih, add_assoc]

/-- The sum of all amounts splits into the sum over the positives minus
the sum of absolute values over the negatives. -/
lemma sum_amounts_split (l : List Expense) :
    ((l.filter (fun e => decide (0 < e.amount))).map (fun e => e.amount)).sum
      - ((l.filter (fun e => decide (e.amount < 0))).map (fun e => |e.amount|)).sum
      = (l.map (fun e => e.amount)).sum := by
  induction l with
  | nil => simp
  | cons e t ih =>
    rcases lt_trichotomy e.amount 0 with h | h | h
    · have h1 : ¬ (0 < e.amount) := by omega
      simp [List.filter_cons, h, h1, abs_of_neg h]
      omega
    · simp [List.filter_cons, h, ih]
    · have h1 : ¬ (e.amount < 0) := by omega
      simp [List.filter_cons, h, h1]
      omega

/-- Shape invariant of the `settings` store: it is empty, or holds exactly
one record, stored under the fixed key 1. -/
def settingsInv (db : DB) : Prop :=
  db.settingsStore = [] ∨ ∃ s, db.settingsStore = [s] ∧ s.id = 1

/-- Saving settings preserves the settings-store shape invariant. -/
lemma settingsInv_saveSettings (s : Settings) (db : DB) (h : settingsInv db) :
    settingsInv (saveSettings s db) := by
  rcases h with h | ⟨t, ht, hid⟩
  · right
    exact ⟨{ s with id := 1 }, by simp [saveSettings, h, putSettingsByKey], rfl⟩
  · right
    refine ⟨{ s with id := 1 }, ?_, rfl⟩
    simp [saveSettings, ht, putSettingsByKey, hid]

/-- The shape invariant only looks at the `settings` store, so it carries
over to any state with the same `settings` store. -/
lemma settingsInv_of_eq (db db' : DB) (hs : db'.settingsStore = db.settingsStore)
    (h : settingsInv db) : settingsInv db' := by
  rcases h with h1 | ⟨t, ht, hid⟩
  · left; rw [hs, h1]
  · right; exact ⟨t, by rw [hs, ht], hid⟩

/-- A successful `addReceipt` leaves the `settings` store untouched. -/
lemma settingsStore_addReceipt (r : ReceiptInput) (db : DB) (k : Nat) (db' : DB)
    (h : addReceipt r db = .ok (k, db')) : db'.settingsStore = db.settingsStore := by
  unfold addReceipt at h
  split at h
  · cases h
  · simp only [Except.ok.injEq, Prod.mk.injEq] at h
    rw [← h.2]

/-- Saving credentials leaves the `settings` store untouched. -/
lemma settingsStore_saveAuth (u hpw : String) (db : DB) :
    (saveAuthCredentials u hpw db).settingsStore = db.settingsStore := rfl

/-- No operation can put a record under a key other than 1 into the
`settings` store, nor make the store hold more than one record. -/
lemma settingsInv_applyOp (op : Op) (db : DB) (h : settingsInv db) :
    settingsInv (applyOp op db) := by
  cases op with
  | createReceiptOp f =>
    simp only [applyOp]
    rcases hcr : createReceipt f db with e | p
    · exact h
    · obtain ⟨k, db'⟩ := p
      exact settingsInv_of_eq db db' (settingsStore_addReceipt _ db k db' hcr) h
  | createExpenseOp f mode =>
    exact settingsInv_of_eq db _ rfl h
  | saveSettingsOp s => exact settingsInv_saveSettings s db h
  | settingsPageSaveOp prev form pad =>
    exact settingsInv_saveSettings _ db h
  | loadSettingsOp =>
    simp only [applyOp, loadSettings]
    rcases hg : getSettings db with _ | s
    · exact settingsInv_saveSettings _ db h
    · exact h
  | saveAuthOp u hpw =>
    exact settingsInv_of_eq db _ (settingsStore_saveAuth u hpw db) h
  | ensureDefaultAdminOp hash =>
    simp only [applyOp, ensureDefaultAdmin]
    rcases hg : getAuthCredentials "admin" db with _ | c
    · exact settingsInv_of_eq db _ (settingsStore_saveAuth _ _ db) h
    · exact h
  | changePasswordOp hash c n =>
    simp only [applyOp, changePassword]
    rcases hg : getAuthCredentials "admin" db with _ | cred
    · exact h
    · by_cases hh : hash c = cred.passwordHash
      · simp only [hh, if_true]
        exact settingsInv_of_eq db _ (settingsStore_saveAuth _ _ db) h
      · simp only [hh, if_false]
        exact h

/-- The settings-store shape invariant holds after any sequence of
operations run from the fresh database. -/
lemma settingsInv_run (ops : List Op) :
    settingsInv (ops.foldl (fun d op => applyOp op d) emptyDB) := by
  have main : ∀ (l : List Op) (db : DB), settingsInv db →
      settingsInv (l.foldl (fun d op => applyOp op d) db) := by
    intro l
    induction l with
    | nil => intro db h; exact h
    | cons op t ih =>
      intro db h
      exact ih (applyOp op db) (settingsInv_applyOp op db h)
  exact main ops emptyDB (Or.inl rfl)

/-! ## Concrete test fixtures -/

/-- The receipt input of the end-to-end scenario in the specification. -/
def demoReceiptFields : ReceiptFormData :=
  { name := "A", blockNumber := "12", amount := 500, date := "2024-01-01",
    forMonth := "2024-01", paymentMethod := .cash }

/-- The receipt produced by the first creation of the scenario. -/
def demoReceipt1 : Receipt :=
  { id := 1, receiptNumber := "NSM-0001", name := "A", blockNumber := "12",
    amount := 500, date := "2024-01-01", forMonth := "2024-01", paymentMethod := .cash }

/-- The receipt produced by the second creation of the scenario. -/
def demoReceipt2 : Receipt :=
  { id := 2, receiptNumber := "NSM-0002", name := "A", blockNumber := "12",
    amount := 500, date := "2024-01-01", forMonth := "2024-01", paymentMethod := .cash }

/-- Database state after the first creation of the scenario. -/
def dbAfterFirstCreate : DB :=
  { emptyDB with receiptsStore := [demoReceipt1], receiptsNextKey := 2 }

/-- Database state after the second creation of the scenario. -/
def dbAfterSecondCreate : DB :=
  { emptyDB with receiptsStore := [demoReceipt1, demoReceipt2], receiptsNextKey := 3 }

/-- C1: every receipt creation assigns the number "NSM-" followed by the
current receipt count plus one, zero-padded to 4 digits; from the empty
store the first creation returns key 1 with number "NSM-0001" and a second
creation with the same input fields returns key 2 with number "NSM-0002". -/
theorem receipt_numbering_scheme (db : DB) (f : ReceiptFormData) (k : Nat) (db' : DB)
    (h : createReceipt f db = .ok (k, db')) :
    (∃ r : Receipt, db'.receiptsStore = db.receiptsStore ++ [r] ∧
        r.receiptNumber =
          "NSM-" ++ padStart (toString ((getAllReceipts db).length + 1)) 4 '0') ∧
    createReceipt demoReceiptFields emptyDB = .ok (1, dbAfterFirstCreate) ∧
    demoReceipt1.receiptNumber = "NSM-0001" ∧
    createReceipt demoReceiptFields dbAfterFirstCreate = .ok (2, dbAfterSecondCreate) ∧
    demoReceipt2.receiptNumber = "NSM-0002" := by
  refine ⟨?_, rfl, rfl, rfl, rfl⟩
  unfold createReceipt addReceipt at h
  split at h
  · cases h
  · simp only [Except.ok.injEq, Prod.mk.injEq] at h
    rw [← h.2]
    exact ⟨_, rfl, rfl⟩

/-- Witness for C1 at the scenario input: the first creation from the
empty store appends one receipt carrying the computed number. -/
theorem receipt_numbering_scheme_witness :
    ∃ r : Receipt, dbAfterFirstCreate.receiptsStore = emptyDB.receiptsStore ++ [r] ∧
      r.receiptNumber = "NSM-" ++ padStart (toString ((getAllReceipts emptyDB).length + 1)) 4 '0' :=
  (receipt_numbering_scheme emptyDB demoReceiptFields 1 dbAfterFirstCreate rfl).1

/-- A receipt input carrying the explicit receipt number "NSM-0001",
already present in `dbAfterFirstCreate`. -/
def dupReceiptInput : ReceiptInput :=
  { receiptNumber := "NSM-0001", name := "B", blockNumber := "7",
    amount := 100, date := "2024-02-02", forMonth := "2024-02", paymentMethod := .online }

/-- C2 counterexample: the claim quantifies over any state of the store,
but in a state that already holds the receipt number, both of the two
attempted insertions fail with a ConstraintViolation — a failed add leaves
the state unchanged, so the second attempt is the very same evaluation —
and there is no successful insertion at all, refuting "exactly one
successful insertion". -/
theorem receipt_uniqueness_cex :
    dbAfterFirstCreate.receiptsStore.any
        (fun x => x.receiptNumber == dupReceiptInput.receiptNumber) = true ∧
    addReceipt dupReceiptInput dbAfterFirstCreate = .error .constraintViolation := by
  exact ⟨by decide, rfl⟩

/-- C2 amended: for any state of the store not already holding the shared
receipt number, storing two receipts carrying the same explicit receipt
number results in exactly one successful insertion and a
ConstraintViolation for the other; moreover a successful insertion
preserves distinctness of the stored receipt numbers, so no two receipts
in the store ever share a receipt number. -/
theorem receipt_uniqueness_amended (db : DB) (r1 r2 : ReceiptInput)
    (hfresh : db.receiptsStore.any (fun x => x.receiptNumber == r1.receiptNumber) = false)
    (hsame : r2.receiptNumber = r1.receiptNumber) :
    (∃ k db', addReceipt r1 db = .ok (k, db') ∧
        addReceipt r2 db' = .error .constraintViolation) ∧
    ((db.receiptsStore.map fun x => x.receiptNumber).Nodup →
      ∀ k db', addReceipt r1 db = .ok (k, db') →
        (db'.receiptsStore.map fun x => x.receiptNumber).Nodup) := by
  constructor
  · refine ⟨db.receiptsNextKey,
      { db with
          receiptsStore := db.receiptsStore ++
            [{ id := db.receiptsNextKey
               receiptNumber := r1.receiptNumber
               name := r1.name
               blockNumber := r1.blockNumber
               amount := r1.amount
               date := r1.date
               forMonth := r1.forMonth
               paymentMethod := r1.paymentMethod }]
          receiptsNextKey := db.receiptsNextKey + 1 }, ?_, ?_⟩
    · unfold addReceipt
      rw [hfresh]
      simp
    · unfold addReceipt
      simp [List.any_append, hsame, hfresh]
  · intro hnodup k db' hok
    unfold addReceipt at hok
    split at hok
    · cases hok
    · simp only [Except.ok.injEq, Prod.mk.injEq] at hok
      rw [← hok.2]
      have hnotin : r1.receiptNumber ∉ db.receiptsStore.map fun x => x.receiptNumber := by
        intro hmem
        rw [List.mem_map] at hmem
        obtain ⟨x, hx, hxeq⟩ := hmem
        have : db.receiptsStore.any (fun x => x.receiptNumber == r1.receiptNumber) = true :=
          List.any_eq_true.mpr ⟨x, hx, by simp [hxeq]⟩
        rw [hfresh] at this
        cases this
      simp [List.nodup_append, hnodup, hnotin]

/-- Witness for C2 amended, from the empty store: the first insertion of
"NSM-0001" succeeds and the second is rejected. -/
theorem receipt_uniqueness_amended_witness :
    ∃ k db', addReceipt dupReceiptInput emptyDB = .ok (k, db') ∧
      addReceipt dupReceiptInput db' = .error .constraintViolation :=
  (receipt_uniqueness_amended emptyDB dupReceiptInput dupReceiptInput (by decide) rfl).1

/-- A database whose auth store holds the admin credential with stored
digest "pw". -/
def authDB : DB :=
  { emptyDB with authStore := [⟨"admin", "pw"⟩] }

/-- C3: login returns true if and only if the username is the fixed admin
identity, a stored credential exists, and the digest of the password
equals the stored digest; every mismatch case returns false. -/
theorem login_verifies_credentials (hash : String → String) (user pass : String) (db : DB) :
    login hash user pass db = true ↔
      (user = "admin" ∧ ∃ cred, getAuthCredentials "admin" db = some cred ∧
        hash pass = cred.passwordHash) := by
  unfold login
  by_cases hu : user = "admin"
  · rcases hg : getAuthCredentials "admin" db with _ | cred
    · simp [hu, hg]
    · simp [hu, hg]
  · simp [hu]

/-- Witness for C3: with the identity digest and stored hash "pw", the
admin login with password "pw" succeeds. -/
theorem login_verifies_credentials_witness :
    login (fun s => s) "admin" "pw" authDB = true :=
  (login_verifies_credentials (fun s => s) "admin" "pw" authDB).mpr
    ⟨rfl, ⟨"admin", "pw"⟩, rfl, rfl⟩

/-- C4 counterexample: with no stored credential, the change-password
handler reports nothing at all — the claim says this case reports
WrongCurrentPassword, but the handler body is guarded by the credential
lookup and is skipped, leaving no message and the store unchanged. -/
theorem change_password_cex :
    (changePassword (fun s => s) "old" "new" emptyDB).1 = .silent ∧
    (changePassword (fun s => s) "old" "new" emptyDB).1 ≠ .wrongCurrentPassword ∧
    (changePassword (fun s => s) "old" "new" emptyDB).2 = emptyDB := by
  refine ⟨rfl, ?_, rfl⟩
  intro h
  cases h

/-- C4 amended: the change succeeds exactly when a credential is stored
and the digest of the current password matches it, in which case the
stored digest is overwritten with the digest of the new password; a
stored credential with a digest mismatch is reported as a wrong current
password with the store unchanged; with no stored credential the handler
reports nothing and leaves the store unchanged; it never throws. -/
theorem change_password_contract (hash : String → String)
    (currentPassword newPassword : String) (db : DB) :
    ((changePassword hash currentPassword newPassword db).1 = .success ↔
      ∃ cred, getAuthCredentials "admin" db = some cred ∧
        hash currentPassword = cred.passwordHash) ∧
    ((changePassword hash currentPassword newPassword db).1 = .success →
      (changePassword hash currentPassword newPassword db).2 =
          saveAuthCredentials "admin" (hash newPassword) db ∧
      getAuthCredentials "admin" (changePassword hash currentPassword newPassword db).2 =
          some ⟨"admin", hash newPassword⟩) ∧
    (∀ cred, getAuthCredentials "admin" db = some cred →
      hash currentPassword ≠ cred.passwordHash →
      changePassword hash currentPassword newPassword db = (.wrongCurrentPassword, db)) ∧
    (getAuthCredentials "admin" db = none →
      changePassword hash currentPassword newPassword db = (.silent, db)) := by
  rcases hg : getAuthCredentials "admin" db with _ | cred
  · refine ⟨?_, ?_, ?_, ?_⟩
    · simp [changePassword, hg]
    · simp [changePassword, hg]
    · intro c hc
      simp at hc
    · intro _
      simp [changePassword, hg]
  · by_cases hh : hash currentPassword = cred.passwordHash
    · refine ⟨?_, ?_, ?_, ?_⟩
      · simp only [changePassword, hg, hh, if_true]
        exact ⟨fun _ => ⟨cred, rfl, rfl⟩, fun _ => trivial⟩
      · intro _
        refine ⟨by simp [changePassword, hg, hh], ?_⟩
        simp [changePassword, hg, hh, getAuth_saveAuth]
      · intro c hc hne
        injection hc with hcc
        subst hcc
        exact absurd hh hne
      · intro hnone
        simp at hnone
    · refine ⟨?_, ?_, ?_, ?_⟩
      · simp only [changePassword, hg, hh, if_false]
        constructor
        · intro hfalse
          cases hfalse
        · rintro ⟨c, hc, hch⟩
          injection hc with hcc
          subst hcc
          exact absurd hch hh
      · intro hfalse
        simp only [changePassword, hg, hh, if_false] at hfalse
        cases hfalse
      · intro c hc hne
        injection hc with hcc
        subst hcc
        simp [changePassword, hg, hh]
      · intro hnone
        simp at hnone

/-- Witness for C4 amended: with stored digest "pw" and the identity
digest, changing the password from "pw" reports success. -/
theorem change_password_contract_witness :
    (changePassword (fun s => s) "pw" "pw2" authDB).1 = .success :=
  ((change_password_contract (fun s => s) "pw" "pw2" authDB).1).mpr
    ⟨⟨"admin", "pw"⟩, rfl, rfl⟩

/-- A database whose auth store holds the admin credential with stored
digest "a" (the identity digest of password "a"). -/
def authDBa : DB :=
  { emptyDB with authStore := [⟨"admin", "a"⟩] }

/-- C5 counterexample: with old = new = "a" the change-password call
succeeds, the side hypothesis — the digests differ whenever the passwords
differ — holds vacuously, yet login with the old password still succeeds
afterwards, refuting the claimed "verify with old fails". -/
theorem credential_roundtrip_cex :
    (changePassword (fun s => s) "a" "a" authDBa).1 = .success ∧
    ("a" ≠ "a" → (fun s => s) "a" ≠ (fun s => s) "a") ∧
    login (fun s => s) "admin" "a" (changePassword (fun s => s) "a" "a" authDBa).2 = true := by
  exact ⟨rfl, fun h => absurd rfl h, rfl⟩

/-- C5 amended: if the change-password call succeeds and the digests of
the old and new passwords differ, then afterwards login as admin with the
old password fails and with the new password succeeds. -/
theorem credential_roundtrip (hash : String → String) (oldPassword newPassword : String)
    (db db' : DB)
    (hsucc : changePassword hash oldPassword newPassword db = (.success, db'))
    (hdiff : hash oldPassword ≠ hash newPassword) :
    login hash "admin" oldPassword db' = false ∧
    login hash "admin" newPassword db' = true := by
  rcases hg : getAuthCredentials "admin" db with _ | cred
  · have heq : changePassword hash oldPassword newPassword db = (.silent, db) := by
      simp [changePassword, hg]
    rw [heq] at hsucc
    simp at hsucc
  · by_cases hh : hash oldPassword = cred.passwordHash
    · have heq : changePassword hash oldPassword newPassword db =
          (.success, saveAuthCredentials "admin" (hash newPassword) db) := by
        simp [changePassword, hg, hh]
      rw [heq] at hsucc
      have hdb : db' = saveAuthCredentials "admin" (hash newPassword) db := by
        have h2 := congrArg Prod.snd hsucc
        simpa using h2.symm
      subst hdb
      constructor
      · simp [login, getAuth_saveAuth, hdiff]
      · simp [login, getAuth_saveAuth]
    · have heq : changePassword hash oldPassword newPassword db =
          (.wrongCurrentPassword, db) := by
        simp [changePassword, hg, hh]
      rw [heq] at hsucc
      simp at hsucc

/-- A database whose auth store holds the admin credential with stored
digest "b". -/
def authDBb : DB :=
  { emptyDB with authStore := [⟨"admin", "b"⟩] }

/-- Witness for C5 amended: changing the password from "a" to "b" under
the identity digest makes login with "a" fail and with "b" succeed. -/
theorem credential_roundtrip_witness :
    login (fun s => s) "admin" "a" authDBb = false ∧
    login (fun s => s) "admin" "b" authDBb = true :=
  credential_roundtrip (fun s => s) "a" "b" authDBa authDBb rfl (by decide)

/-- The net balance equals the sum over the income rows minus the sum of
absolute values over the outlay rows, as displayed by the expense report. -/
lemma netBalance_eq (es : List Expense) :
    netBalance es = totalIncome es - totalExpense es := by
  have h1 : netBalance es = (es.map (fun e => e.amount)).sum := by
    simpa [netBalance] using foldl_add_g (fun e => e.amount) es 0
  have h2 : totalIncome es =
      ((es.filter (fun e => decide (0 < e.amount))).map (fun e => e.amount)).sum := by
    simpa [totalIncome] using
      foldl_add_g (fun e => e.amount) (es.filter (fun e => decide (0 < e.amount))) 0
  have h3 : totalExpense es =
      ((es.filter (fun e => decide (e.amount < 0))).map (fun e => |e.amount|)).sum := by
    simpa [totalExpense] using
      foldl_add_g (fun e => |e.amount|) (es.filter (fun e => decide (e.amount < 0))) 0
  rw [h1, h2, h3, ← sum_amounts_split es]

/-- C6: creating an expense in income mode persists the entered magnitude
as a positive amount, and in outlay mode persists its negation — a
negative amount of the same magnitude; and the net balance shown to the
user is the sum of all stored amounts, equal to the income total minus
the absolute-value total of the outlays. -/
theorem expense_sign_convention (f : ExpenseFormData) (db : DB) (hpos : 0 < f.amount) :
    ((createExpense f .add db).2.expensesStore =
        db.expensesStore ++
          [{ id := db.expensesNextKey, date := f.date, description := f.description,
             amount := f.amount }] ∧
      0 < f.amount) ∧
    ((createExpense f .subtract db).2.expensesStore =
        db.expensesStore ++
          [{ id := db.expensesNextKey, date := f.date, description := f.description,
             amount := -f.amount }] ∧
      -f.amount < 0 ∧ |(-f.amount)| = f.amount) ∧
    (∀ es : List Expense, netBalance es = totalIncome es - totalExpense es) := by
  refine ⟨⟨rfl, hpos⟩, ⟨rfl, by omega, ?_⟩, fun es => netBalance_eq es⟩
  rw [abs_neg, abs_of_pos hpos]

/-- Witness for C6 at a concrete entry of magnitude 50: outlay mode stores
the amount -50. -/
theorem expense_sign_convention_witness :
    (createExpense ⟨"2024-03-01", "paint", 50⟩ .subtract emptyDB).2.expensesStore =
      emptyDB.expensesStore ++
        [{ id := 1, date := "2024-03-01", description := "paint", amount := -50 }] :=
  ((expense_sign_convention ⟨"2024-03-01", "paint", 50⟩ emptyDB (by decide)).2.1).1

/-- C7: loading settings from a store holding the singleton record returns
that record unchanged; loading from a store with no settings record writes
and returns the hard-coded default — admin name "Admin", block
"Society Office", typed signature with the fixed default text, empty drawn
and uploaded payloads — under id 1, after which a settings record exists. -/
theorem settings_lazy_default (db : DB) (s : Settings) :
    (db.settingsStore = [s] → s.id = 1 → loadSettings db = (s, db)) ∧
    (db.settingsStore = [] →
      loadSettings db = ({ defaultSettings with id := 1 }, saveSettings defaultSettings db) ∧
      ({ defaultSettings with id := 1 } : Settings) =
        { id := 1, adminName := "Admin", blockNumber := "Society Office",
          signatureType := .typed, typedSignature := "For Neelkanth Society",
          drawnSignature := "", uploadedSignature := "" } ∧
      getSettings (loadSettings db).2 = some { defaultSettings with id := 1 }) := by
  constructor
  · intro h1 h2
    have hget : getSettings db = some s := by
      simp [getSettings, h1, List.find?, h2]
    simp [loadSettings, hget]
  · intro h
    have hget : getSettings db = none := by
      simp [getSettings, h]
    refine ⟨by simp [loadSettings, hget], rfl, ?_⟩
    simp [loadSettings, hget, getSettings_saveSettings]

/-- Witness for C7: from the empty store, loading creates the default and
a subsequent read finds it under id 1. -/
theorem settings_lazy_default_witness :
    getSettings (loadSettings emptyDB).2 = some { defaultSettings with id := 1 } :=
  ((settings_lazy_default emptyDB defaultSettings).2 rfl).2.2

/-- JS `s || ''` is the identity on strings. -/
lemma jsOrString_empty (s : String) : jsOrString s "" = s := by
  unfold jsOrString
  split <;> simp_all

/-- C8: saving a partial settings update (neither image payload touched)
and loading again returns a record whose drawn and uploaded signature
payloads keep their pre-update values while the form fields take their
new values. -/
theorem settings_frame_save (db : DB) (prev : Settings) (form : SettingsFormData)
    (_hprev : getSettings db = some prev) :
    loadSettings (settingsPageSave prev form none db) =
      ({ id := 1, adminName := form.adminName, blockNumber := form.blockNumber,
         signatureType := form.signatureType, typedSignature := form.typedSignature,
         drawnSignature := prev.drawnSignature,
         uploadedSignature := prev.uploadedSignature },
       settingsPageSave prev form none db) := by
  have hre : settingsPageSave prev form none db =
      saveSettings
        { id := prev.id, adminName := form.adminName, blockNumber := form.blockNumber,
          signatureType := form.signatureType, typedSignature := form.typedSignature,
          drawnSignature := jsOrString prev.drawnSignature "",
          uploadedSignature := jsOrString prev.uploadedSignature "" } db := rfl
  rw [hre]
  unfold loadSettings
  rw [getSettings_saveSettings]
  simp [jsOrString_empty]

/-- A pre-existing settings record with non-empty image payloads, for the
C8 witness. -/
def prevSettings : Settings :=
  { id := 1, adminName := "Old", blockNumber := "B-1", signatureType := .drawn,
    typedSignature := "T", drawnSignature := "data-drawn", uploadedSignature := "data-upload" }

/-- A database holding `prevSettings`. -/
def settingsDB : DB :=
  { emptyDB with settingsStore := [prevSettings] }

/-- Witness for C8: a partial update of the form fields keeps the stored
image payloads of `prevSettings`. -/
theorem settings_frame_save_witness :
    loadSettings (settingsPageSave prevSettings ⟨"New", "B-2", .typed, "Sig"⟩ none settingsDB) =
      ({ id := 1, adminName := "New", blockNumber := "B-2", signatureType := .typed,
         typedSignature := "Sig", drawnSignature := "data-drawn",
         uploadedSignature := "data-upload" },
       settingsPageSave prevSettings ⟨"New", "B-2", .typed, "Sig"⟩ none settingsDB) :=
  settings_frame_save settingsDB prevSettings ⟨"New", "B-2", .typed, "Sig"⟩ rfl

/-- Seeding twice is the same as seeding once. -/
lemma ensureDefaultAdmin_idem (hash : String → String) (db : DB) :
    ensureDefaultAdmin hash (ensureDefaultAdmin hash db) = ensureDefaultAdmin hash db := by
  rcases hg : getAuthCredentials "admin" db with _ | c
  · have h1 : ensureDefaultAdmin hash db = saveAuthCredentials "admin" (hash "google") db := by
      simp [ensureDefaultAdmin, hg]
    rw [h1]
    simp [ensureDefaultAdmin, getAuth_saveAuth]
  · have h1 : ensureDefaultAdmin hash db = db := by
      simp [ensureDefaultAdmin, hg]
    rw [h1, h1]

/-- C9: at startup, if no admin credential exists the digest of the
hard-coded default password is persisted; if one exists the check changes
nothing; and any number of further runs after the first leaves the stored
credential unchanged. -/
theorem default_admin_seeding (hash : String → String) (db : DB) :
    (getAuthCredentials "admin" db = none →
      ensureDefaultAdmin hash db = saveAuthCredentials "admin" (hash "google") db ∧
      getAuthCredentials "admin" (ensureDefaultAdmin hash db) =
        some ⟨"admin", hash "google"⟩) ∧
    (∀ c, getAuthCredentials "admin" db = some c → ensureDefaultAdmin hash db = db) ∧
    (∀ n : Nat, (ensureDefaultAdmin hash)^[n] (ensureDefaultAdmin hash db) =
      ensureDefaultAdmin hash db) := by
  refine ⟨?_, ?_, ?_⟩
  · intro hg
    have h1 : ensureDefaultAdmin hash db = saveAuthCredentials "admin" (hash "google") db := by
      simp [ensureDefaultAdmin, hg]
    exact ⟨h1, by rw [h1]; exact getAuth_saveAuth "admin" (hash "google") db⟩
  · intro c hg
    simp [ensureDefaultAdmin, hg]
  · intro n
    induction n with
    | zero => rfl
    | succ m ih => rw [Function.iterate_succ_apply', ih, ensureDefaultAdmin_idem]

/-- Witness for C9: seeding the empty store under the identity digest
stores the default-password digest for admin. -/
theorem default_admin_seeding_witness :
    getAuthCredentials "admin" (ensureDefaultAdmin (fun s => s) emptyDB) =
      some ⟨"admin", "google"⟩ :=
  ((default_admin_seeding (fun s => s) emptyDB).1 rfl).2

/-- C10: the settings write path forces the record key to the constant 1
— the id supplied by the caller is irrelevant — so after any sequence of
operations from the fresh database every stored settings record has id 1
and the settings store holds at most one record. -/
theorem settings_key_invariant :
    (∀ (s : Settings) (i : Nat) (db : DB),
      saveSettings { s with id := i } db = saveSettings s db) ∧
    (∀ ops : List Op,
      (∀ r ∈ (ops.foldl (fun d op => applyOp op d) emptyDB).settingsStore, r.id = 1) ∧
      (ops.foldl (fun d op => applyOp op d) emptyDB).settingsStore.length ≤ 1) := by
  constructor
  · intro s i db
    rfl
  · intro ops
    rcases settingsInv_run ops with h | ⟨s, hs, hid⟩
    · refine ⟨?_, ?_⟩
      · rw [h]
        rintro r hr
        cases hr
      · rw [h]
        simp
    · refine ⟨?_, by rw [hs]; simp⟩
      rw [hs]
      rintro r hr
      rw [List.mem_singleton] at hr
      rw [hr]
      exact hid

/-- Witness for C10: a single save with caller-supplied id 7 still leaves
at most one settings record. -/
theorem settings_key_invariant_witness :
    ([Op.saveSettingsOp { defaultSettings with id := 7 }].foldl
        (fun d op => applyOp op d) emptyDB).settingsStore.length ≤ 1 :=
  (settings_key_invariant.2 [Op.saveSettingsOp { defaultSettings with id := 7 }]).2
